import Mathlib

/-!
Verification development for the AlphaForge MCP server.

The definitions below are a shallow embedding of the Python sources:
  - src/integrations/qc_cloud.py       (QuantConnectCloudBridge)
  - src/mcp_server/bridge.py           (LeanBridge)
  - src/mcp_server/tools.py            (TradingTools, TradingResources)
  - src/mcp/server.py                  (McpServer)
  - src/mcp/tools.py                   (Tool, Resource)
  - src/mcp/security.py                (OAuth2Authenticator)

Python strings are modelled over their character lists (String in this
toolchain is a structure holding a List Char); helper functions named
with a py prefix embed the corresponding Python string primitives,
restricted to the ASCII behaviour that the repository exercises.
-/

namespace AlphaForge

/-- Shape of the dict produced by both command bridges:
keys success, output, error, return_code. -/
structure CommandResult where
  success : Bool
  output : String
  error : String
  return_code : Int
deriving DecidableEq

/-- The possible behaviours of the asyncio subprocess launch inside the
try block of the bridges: the process completed with a return code and
decoded stdout/stderr, the executable was missing (FileNotFoundError),
or some other exception was raised during launch. -/
inductive LaunchOutcome where
  | completed (returncode : Int) (stdout : String) (stderr : String)
  | fileNotFound
  | otherError (msg : String)
deriving DecidableEq

/-- Embeds QuantConnectCloudBridge._execute_lean_command
(src/integrations/qc_cloud.py, lines 14-59).  The try/except structure
is total: every launch behaviour is mapped to a CommandResult, so no
exception propagates to the caller. -/
def execute_lean_command : LaunchOutcome → CommandResult
  | .completed rc out err =>
    { success := rc == 0, output := out, error := err, return_code := rc }
  | .fileNotFound =>
    { success := false, output := "",
      error := "\x27lean\x27 command not found. Check LEAN installation and PATH.",
      return_code := -1 }
  | .otherError m =>
    { success := false, output := "",
      error := "An unexpected error occurred: " ++ m, return_code := -1 }

/-- Embeds LeanBridge.execute (src/mcp_server/bridge.py, lines 5-49).
Its body is character-for-character the same try/except mapping as
QuantConnectCloudBridge._execute_lean_command, except for the log text
of the generic except branch, which does not reach the returned dict. -/
def LeanBridge_execute : LaunchOutcome → CommandResult
  | .completed rc out err =>
    { success := rc == 0, output := out, error := err, return_code := rc }
  | .fileNotFound =>
    { success := false, output := "",
      error := "\x27lean\x27 command not found. Check LEAN installation and PATH.",
      return_code := -1 }
  | .otherError m =>
    { success := false, output := "",
      error := "An unexpected error occurred: " ++ m, return_code := -1 }

/-! ## Python string helpers -/

/-- Embeds str.upper restricted to ASCII (Char.toUpper maps a-z to A-Z
and leaves every other character unchanged, matching Python on the
ASCII inputs the repository handles). -/
def pyUpper (s : String) : String := String.mk (s.data.map Char.toUpper)

/-- Embeds the Python slice s[:n] (the first n characters). -/
def pyTakeChars (n : Nat) (s : String) : String := String.mk (s.data.take n)

/-- The ASCII fragment of the Python regex class backslash-s
(space, tab, newline, carriage return, vertical tab, form feed). -/
def isPySpace (c : Char) : Bool :=
  c = ' ' || c = '\t' || c = '\n' || c = '\r' || c = '\x0b' || c = '\x0c'

/-! ## Symbol validation (TradingTools._validate_symbol) -/

def isUpperAZ (c : Char) : Bool := 'A' ≤ c && c ≤ 'Z'

/-- One to five characters, all in A-Z. -/
def symbolCoreOk (l : List Char) : Bool :=
  decide (1 ≤ l.length) && decide (l.length ≤ 5) && l.all isUpperAZ

/-- Full-match semantics of the anchored regex used by
TradingTools._validate_symbol: one to five capital letters optionally
followed by the literal USD. -/
def symbolFormatOk (s : String) : Bool :=
  symbolCoreOk s.data ||
    (decide (s.data.length ≥ 4) &&
      decide (s.data.drop (s.data.length - 3) = [ 'U', 'S', 'D' ]) &&
      symbolCoreOk (s.data.take (s.data.length - 3)))

/-- The default allow-list: os.getenv ALLOWED_SYMBOLS fallback string
split on commas (src/mcp_server/tools.py, line 223). -/
def defaultAllowedSymbols : List String :=
  ["SPY", "QQQ", "AAPL", "GOOG", "BTCUSD", "ETHUSD"]

/-- Embeds TradingTools._validate_symbol (src/mcp_server/tools.py,
lines 216-226).  The Python method raises ValueError with a message;
here some message stands for that raise and none for a clean return.
The allow-list (the split of the ALLOWED_SYMBOLS environment variable)
is passed explicitly. -/
def validate_symbol (allowed : List String) (symbol : String) : Option String :=
  if !symbolFormatOk (pyUpper symbol) then
    some ("Invalid symbol format: " ++ symbol)
  else if !(allowed.contains (pyUpper symbol)) then
    some ("Symbol " ++ symbol ++ " not permitted in current configuration.")
  else
    none

/-! ## Backtest-id extraction (TradingTools._extract_backtest_id)

The Python method runs re.search with the pattern
(?:backtestId|BacktestId)[:-space-class]+(non-space-class+) and returns
group(1).strip() of the first match, or None.  The functions below
implement exactly that leftmost-match backtracking search over the
character list. -/

/-- A character accepted by the bracket class of colon and whitespace
that separates the label from the identifier token. -/
def isSepChar (c : Char) : Bool := c = ':' || isPySpace c

/-- The maximal non-empty run of non-whitespace characters at the head
of the list (the greedy capture group), or none when the head is
whitespace or the list is empty. -/
def takeToken (cs : List Char) : Option (List Char) :=
  let t := cs.takeWhile (fun c => !isPySpace c)
  if t.isEmpty then none else some t

/-- Backtracking match of the separator-plus-token tail of the regex at
the given position: consume at least one separator character greedily,
then capture a non-empty token; on failure give separator characters
back (a colon counts as a non-space character and can start the
token). -/
def matchAfterLabel : List Char → Option (List Char)
  | [] => none
  | c :: rest =>
    if isSepChar c then
      match matchAfterLabel rest with
      | some g => some g
      | none => takeToken rest
    else
      none

/-- Does one of the two accepted label spellings start at the head of
the list? -/
def labelAt (cs : List Char) : Bool :=
  decide (cs.take 10 = "backtestId".data) || decide (cs.take 10 = "BacktestId".data)

/-- Leftmost search: at each position try the label and its tail, and
on failure slide one character to the right, exactly as re.search
does. -/
def searchBacktestId : List Char → Option (List Char)
  | [] => none
  | c :: rest =>
    if labelAt (c :: rest) then
      match matchAfterLabel ((c :: rest).drop 10) with
      | some g => some g
      | none => searchBacktestId rest
    else
      searchBacktestId rest

/-- Embeds the Python str.strip over the ASCII whitespace class. -/
def pyStrip (s : String) : String :=
  String.mk (((s.data.dropWhile isPySpace).reverse.dropWhile isPySpace).reverse)

/-- Embeds TradingTools._extract_backtest_id (src/mcp_server/tools.py,
lines 238-247). -/
def extract_backtest_id (cli_output : String) : Option String :=
  (searchBacktestId cli_output.data).map (fun g => pyStrip (String.mk g))

/-! ## The cloud_backtest pipeline (TradingTools.cloud_backtest) -/

/-- The two bridge methods the pipeline can invoke: push_changes and
submit_cloud_backtest (src/integrations/qc_cloud.py, lines 61-106). -/
inductive ExtCall where
  | push (project : String)
  | submit (project : String) (backtest_name : Option String)
deriving DecidableEq

/-- Return value of the pipeline: either the dict built by
TradingTools._format_error (status error with a context tag and a
message) or the final response dict with status, backtest_id and the
full submission CommandResult as details. -/
inductive Outcome where
  | formattedError (context : String) (message : String)
  | response (status : String) (backtest_id : Option String) (details : CommandResult)
deriving DecidableEq

/-- Embeds TradingTools._format_error (src/mcp_server/tools.py, lines
228-236); the wall-clock timestamp field is outside the embedding. -/
def format_error (context message : String) : Outcome :=
  Outcome.formattedError context message

/-- The status field of either response shape. -/
def Outcome.status : Outcome → String
  | .formattedError _ _ => "error"
  | .response s _ _ => s

/-- The backtest_id field; the error dict carries none. -/
def Outcome.backtestIdField : Outcome → Option String
  | .formattedError _ _ => none
  | .response _ b _ => b

/-- Embeds dict.get on the strategy_parameters mapping (string values
suffice for the key the code reads). -/
def dictGet (d : List (String × String)) (k : String) : Option String :=
  (d.find? (fun p => p.1 == k)).map Prod.snd

/-- The validation step of cloud_backtest (src/mcp_server/tools.py,
lines 52-58): fetch the symbol parameter; a missing or falsy (empty)
symbol is only logged; otherwise _validate_symbol runs and some message
stands for the ValueError it may raise. -/
def validation_stage (allowed : List String) (params : List (String × String)) :
    Option String :=
  match dictGet params "symbol" with
  | none => none
  | some s => if s = "" then none else validate_symbol allowed s

/-- Embeds TradingTools.cloud_backtest (src/mcp_server/tools.py, lines
51-111).  The bridge argument gives the CommandResult each external
call would produce; the returned list records the bridge calls the run
actually issued, in order.  A ValueError from validation is caught by
the except ValueError branch, which returns the Validation Error dict
before any bridge call.  The bridge methods always populate the error
key, so the Unknown-push-error default of dict.get is not reachable. -/
def cloud_backtest (allowed : List String) (bridge : ExtCall → CommandResult)
    (project_name : String) (strategy_parameters : List (String × String))
    (backtest_name : Option String) : Outcome × List ExtCall :=
  match validation_stage allowed strategy_parameters with
  | some ve => (format_error "Validation Error" ve, [])
  | none =>
    let push_result := bridge (ExtCall.push project_name)
    if !push_result.success then
      (format_error "Push failed"
        (push_result.error ++
          (if push_result.output ≠ "" then
            " | Output: " ++ pyTakeChars 200 push_result.output ++ "..."
          else "")),
       [ExtCall.push project_name])
    else
      let bt_result := bridge (ExtCall.submit project_name backtest_name)
      let backtest_id :=
        if bt_result.success then extract_backtest_id bt_result.output else none
      (Outcome.response (if bt_result.success then "success" else "error")
        backtest_id bt_result,
       [ExtCall.push project_name, ExtCall.submit project_name backtest_name])

/-! ## Tool descriptors and the OAuth2 authenticator -/

/-- Embeds the metadata the Tool decorator (src/mcp/tools.py, lines
5-24) attaches to a handler: name, description, params and the
require_auth flag, whose Python default argument is False. -/
structure ToolDesc where
  name : String
  description : String
  params : List (String × String)
  require_auth : Bool := false
deriving DecidableEq

/-- Embeds OAuth2Authenticator (src/mcp/security.py, lines 3-25); both
constructor arguments default to the empty list via the or-[] idiom. -/
structure OAuth2Authenticator where
  allowed_domains : List String := []
  auto_approve_tools : List String := []
deriving DecidableEq

/-- OAuth2Authenticator.authenticate: the prototype accepts every
token. -/
def OAuth2Authenticator.authenticate (_a : OAuth2Authenticator) (_token : String) :
    Bool :=
  true

/-- OAuth2Authenticator.authorize: membership of the tool name in the
auto-approve list; the token is not read. -/
def OAuth2Authenticator.authorize (a : OAuth2Authenticator) (_token : String)
    (tool_name : String) : Bool :=
  a.auto_approve_tools.contains tool_name

/-- The authenticator AlphaForgeServer constructs
(src/mcp_server/server.py, lines 21-25). -/
def alphaForgeAuthenticator : OAuth2Authenticator :=
  { allowed_domains := ["quantconnect.com"],
    auto_approve_tools := ["cloud_backtest", "push_project", "download_market_data"] }

/-! ## The tool endpoint (McpServer.add_tools.create_tool_endpoint) -/

/-- Behaviour of the awaited tool handler inside the endpoint: it
either returns a value or raises. -/
inductive HandlerOutcome (R : Type) where
  | returns (result : R)
  | raises (msg : String)
deriving DecidableEq

/-- What the endpoint hands back to FastAPI: an HTTPException raised by
the auth gate, the handler result passed through unmodified, or the
500 JSONResponse wrapping a handler exception. -/
inductive Response (R : Type) where
  | httpError (status_code : Nat) (detail : String)
  | result (r : R)
  | toolFailure (status_code : Nat) (error : String)
deriving DecidableEq

/-- The calls the endpoint can make on the authenticator, recorded in
order. -/
inductive AuthCallTag where
  | authenticateCall
  | authorizeCall
deriving DecidableEq

/-- The try/except around the handler call: a handler exception is
wrapped into the 500 JSONResponse rather than escaping. -/
def runHandler {R : Type} : HandlerOutcome R → Response R
  | .returns r => .result r
  | .raises m => .toolFailure 500 ("Tool execution failed: " ++ m)

/-- Embeds the Python prefix check auth_header.startswith on the
literal Bearer-plus-space. -/
def startsWithBearer (h : String) : Bool :=
  decide (h.data.take 7 = "Bearer ".data)

/-- The guard of the 401 branch: not auth_header or not
auth_header.startswith, negated.  A missing or empty header fails it. -/
def headerHasBearer : Option String → Bool
  | none => false
  | some h => !(h == "") && startsWithBearer h

/-- Helper for the Python str.replace with the empty replacement:
delete every leftmost non-overlapping occurrence of the seven-character
Bearer-plus-space pattern.  The fuel argument starts at the list length
and strictly exceeds the characters still to scan. -/
def stripBearerAux : Nat → List Char → List Char
  | _, [] => []
  | 0, cs => cs
  | fuel + 1, c :: rest =>
    if (c :: rest).take 7 = "Bearer ".data then
      stripBearerAux fuel (rest.drop 6)
    else
      c :: stripBearerAux fuel rest

/-- Embeds auth_header.replace of the Bearer prefix by the empty
string (src/mcp/server.py, line 55); Python replace removes every
occurrence, not only a leading one. -/
def pyReplaceBearer (s : String) : String :=
  String.mk (stripBearerAux s.data.length s.data)

/-- Embeds McpServer.add_tools.create_tool_endpoint (src/mcp/server.py,
lines 43-69) for a tool descriptor (every descriptor built by the Tool
decorator has the three attributes the registration loop checks).  The
request body only feeds the handler, whose behaviour is abstracted by
the handler argument; the returned list records the authenticator
calls in order. -/
def create_tool_endpoint {R : Type} (tool : ToolDesc)
    (authenticator : Option OAuth2Authenticator) (auth_header : Option String)
    (handler : HandlerOutcome R) : Response R × List AuthCallTag :=
  match authenticator, tool.require_auth with
  | some auth, true =>
    if !headerHasBearer auth_header then
      (.httpError 401 "Authentication required", [])
    else
      let token := pyReplaceBearer ((auth_header.getD ""))
      if !auth.authenticate token then
        (.httpError 401 "Invalid authentication token", [.authenticateCall])
      else if !auth.authorize token tool.name then
        (.httpError 403 "Not authorized to use this tool",
         [.authenticateCall, .authorizeCall])
      else
        (runHandler handler, [.authenticateCall, .authorizeCall])
  | some _, false => (runHandler handler, [])
  | none, _ => (runHandler handler, [])

/-! ## Tool registration (McpServer.add_tools) -/

/-- Embeds the registry effect of McpServer.add_tools (src/mcp/server.py,
lines 33-35): self.tools.extend with no uniqueness check. -/
def add_tools (state : List ToolDesc) (tools : List ToolDesc) : List ToolDesc :=
  state ++ tools

/-- The descriptor the local_backtest handler gets in
AlphaForgeServer.register_tools (src/mcp_server/server.py, lines
34-38). -/
def local_backtest_strategy_desc : ToolDesc :=
  { name := "local_backtest_strategy",
    description := "Run LEAN backtest LOCALLY from natural language input",
    params := [("strategy_description", "str")] }

/-- The descriptor of TradingTools.cloud_backtest (src/mcp_server/tools.py,
lines 25-33). -/
def cloud_backtest_desc : ToolDesc :=
  { name := "cloud_backtest",
    description := "Run a backtest on QuantConnect Cloud",
    params := [("project_name", "str"), ("strategy_parameters", "dict"),
               ("backtest_name", "Optional[str]")] }

/-- The descriptor of TradingTools.push_project (src/mcp_server/tools.py,
lines 199-203). -/
def push_project_desc : ToolDesc :=
  { name := "push_project",
    description := "Sync local project changes with QuantConnect Cloud",
    params := [("project_name", "str")] }

/-- The descriptor of TradingTools.download_data (src/mcp_server/tools.py,
lines 154-163). -/
def download_market_data_desc : ToolDesc :=
  { name := "download_market_data",
    description := "(Placeholder) Fetch market data from QuantConnect",
    params := [("symbol", "str"), ("resolution", "str"), ("start_date", "str"),
               ("end_date", "str")] }

/-- The all_tools list AlphaForgeServer.register_tools passes to
add_tools (src/mcp_server/server.py, lines 57-66). -/
def registered_tools : List ToolDesc :=
  [local_backtest_strategy_desc, cloud_backtest_desc, push_project_desc,
   download_market_data_desc]

/-- The commented-out deploy_live registration in the source
(src/mcp_server/tools.py, lines 117-126) is the one descriptor written
with require_auth True; it serves as the concrete auth-required tool. -/
def deploy_live_desc : ToolDesc :=
  { name := "deploy_live",
    description := "Deploy strategy to live trading with confirmation",
    params := [("project_name", "str"), ("environment", "str"),
               ("confirmation_token", "str")],
    require_auth := true }

/-! ## Resources (Resource.get_data and the resource endpoint) -/

/-- Opaque structured payload a provider or backing file yields, plus
the error object literal get_data builds itself. -/
inductive RValue where
  | payload (v : String)
  | errorObj (msg : String)
deriving DecidableEq

/-- Behaviour of the access_method callable when invoked. -/
inductive ProviderBehavior where
  | returns (v : RValue)
  | raises (msg : String)
deriving DecidableEq

/-- State of the backing store at a path: missing (os.path.exists is
false), readable valid JSON, or a file whose open or json.load
raises. -/
inductive FileState where
  | absent
  | validJson (v : RValue)
  | invalidJson (msg : String)
deriving DecidableEq

/-- Embeds the Resource descriptor (src/mcp/tools.py, lines 27-36). -/
structure ResourceDesc where
  name : String
  description : String
  access_method : Option ProviderBehavior := none
  access_path : Option String := none
deriving DecidableEq

/-- A call to get_data either returns a value or raises. -/
inductive GetDataResult where
  | value (v : RValue)
  | raised (msg : String)
deriving DecidableEq

/-- Embeds Resource.get_data (src/mcp/tools.py, lines 38-46) against a
filesystem given as a map from paths to file states.  An empty
access_path string is falsy in Python and falls through to the
not-available branch. -/
def get_data (r : ResourceDesc) (fs : String → FileState) : GetDataResult :=
  match r.access_method with
  | some (.returns v) => .value v
  | some (.raises m) => .raised m
  | none =>
    match r.access_path with
    | some p =>
      if p = "" then .value (.errorObj "Resource not available")
      else
        match fs p with
        | .validJson v => .value v
        | .invalidJson m => .raised m
        | .absent => .value (.errorObj "Resource not available")
    | none => .value (.errorObj "Resource not available")

/-- What the resource endpoint hands back to FastAPI. -/
inductive ResourceResponse where
  | ok (v : RValue)
  | errorResponse (status_code : Nat) (error : String)
deriving DecidableEq

/-- Embeds McpServer.add_resources.create_resource_endpoint
(src/mcp/server.py, lines 85-92): get_data wrapped in try/except, so an
exception becomes the 500 JSONResponse instead of escaping. -/
def create_resource_endpoint (r : ResourceDesc) (fs : String → FileState) :
    ResourceResponse :=
  match get_data r fs with
  | .value v => .ok v
  | .raised m => .errorResponse 500 ("Resource access failed: " ++ m)

/-- The risk_parameters resource of TradingResources
(src/mcp_server/tools.py, lines 265-271): a pure backing-store path. -/
def risk_parameters_desc : ResourceDesc :=
  { name := "risk_parameters",
    description := "Current risk management settings (reads from ./config/risk_settings.json)",
    access_path := some "./config/risk_settings.json" }

/-! ## Concrete bridges and fixtures used by the witnesses -/

/-- A bridge whose every call succeeds with empty output. -/
def alwaysOkBridge : ExtCall → CommandResult :=
  fun _ => { success := true, output := "", error := "", return_code := 0 }

/-- A bridge whose push fails with diagnostics split between error and
output. -/
def pushFailBridge : ExtCall → CommandResult
  | .push _ => { success := false, output := "some out", error := "boom", return_code := 1 }
  | .submit _ _ => { success := true, output := "", error := "", return_code := 0 }

/-- A bridge where push and submit succeed and the submit output
carries the identifier of the end-to-end example of the spec. -/
def happyBridge : ExtCall → CommandResult
  | .push _ => { success := true, output := "pushed", error := "", return_code := 0 }
  | .submit _ _ =>
    { success := true,
      output := "Started backtest for project Proj A with backtestId BT-999",
      error := "", return_code := 0 }

/-- A bridge where push succeeds and submit fails. -/
def submitFailBridge : ExtCall → CommandResult
  | .push _ => { success := true, output := "pushed", error := "", return_code := 0 }
  | .submit _ _ =>
    { success := false, output := "", error := "compile error", return_code := 1 }

/-- Two descriptors sharing one name, for the registration claim. -/
def dupToolA : ToolDesc := { name := "dup", description := "first", params := [] }

/-- Second descriptor with the same name as dupToolA. -/
def dupToolB : ToolDesc := { name := "dup", description := "second", params := [] }

/-- The cloud_backtest descriptor with the auth flag raised, the
hypothetical entitled auth-required tool (its name is on the
auto-approve list of the AlphaForge authenticator). -/
def cloud_backtest_auth_desc : ToolDesc :=
  { cloud_backtest_desc with require_auth := true }

/-- A filesystem with no readable files. -/
def absentFs : String → FileState := fun _ => FileState.absent

/-! ## Claims -/

/-- C1, counterexample.  The claim says that any invocation whose
strategyParameters carry a symbol that is not on the configured
allow-list ends in a Validation Error with no external command issued.
The code uppercases the symbol before both checks, so the symbol spy,
which is not on the default allow-list, passes validation and the run
issues both bridge calls and reports success. -/
theorem C1_claim_counterexample :
    "spy" ∉ defaultAllowedSymbols ∧
    (cloud_backtest defaultAllowedSymbols alwaysOkBridge "Proj"
      [("symbol", "spy")] none).1.status = "success" ∧
    (cloud_backtest defaultAllowedSymbols alwaysOkBridge "Proj"
      [("symbol", "spy")] none).2 =
      [ExtCall.push "Proj", ExtCall.submit "Proj" none] :=
  ⟨by decide, by decide, by decide⟩

/-- C1, amended.  For every invocation whose strategyParameters carry a
non-empty symbol whose uppercased form is not on the configured
allow-list, the outcome is the status error dict with context
Validation Error and a message naming the offending value, and no
bridge call is issued. -/
theorem C1_amended_validation_gate (allowed : List String)
    (bridge : ExtCall → CommandResult) (proj : String)
    (params : List (String × String)) (bname : Option String) (s : String)
    (hs : dictGet params "symbol" = some s) (hne : s ≠ "")
    (hnot : pyUpper s ∉ allowed) :
    ∃ m, cloud_backtest allowed bridge proj params bname =
        (format_error "Validation Error" m, []) ∧
      (format_error "Validation Error" m).status = "error" ∧
      ∃ pre post, m.data = pre ++ s.data ++ post := by
  have hcon : allowed.contains (pyUpper s) = false := by simpa using hnot
  have hval : validation_stage allowed params = validate_symbol allowed s := by
    simp [validation_stage, hs, hne]
  by_cases hfmt : symbolFormatOk (pyUpper s) = true
  · have hvs : validate_symbol allowed s =
        some ("Symbol " ++ s ++ " not permitted in current configuration.") := by
      simp [validate_symbol, hfmt, hcon, hnot]
    refine ⟨"Symbol " ++ s ++ " not permitted in current configuration.", ?_, rfl, ?_⟩
    · simp [cloud_backtest, hval, hvs]
    · refine ⟨"Symbol ".data, " not permitted in current configuration.".data, ?_⟩
      simp [String.data_append]
  · have hvs : validate_symbol allowed s = some ("Invalid symbol format: " ++ s) := by
      simp [validate_symbol, hfmt]
    refine ⟨"Invalid symbol format: " ++ s, ?_, rfl, ?_⟩
    · simp [cloud_backtest, hval, hvs]
    · refine ⟨"Invalid symbol format: ".data, [], ?_⟩
      simp [String.data_append]

/-- Witness for C1_amended_validation_gate at the symbol MSFT, whose
uppercase form is not on the default allow-list. -/
theorem C1_amended_validation_gate_witness :
    dictGet [("symbol", "MSFT")] "symbol" = some "MSFT" ∧
    pyUpper "MSFT" ∉ defaultAllowedSymbols ∧
    ∃ m, cloud_backtest defaultAllowedSymbols alwaysOkBridge "Proj"
        [("symbol", "MSFT")] none =
        (format_error "Validation Error" m, []) ∧
      (format_error "Validation Error" m).status = "error" ∧
      ∃ pre post, m.data = pre ++ "MSFT".data ++ post :=
  ⟨by decide, by decide,
   C1_amended_validation_gate defaultAllowedSymbols alwaysOkBridge "Proj"
     [("symbol", "MSFT")] none "MSFT" (by decide) (by decide) (by decide)⟩

/-- C2.  In every run that reaches the publish stage and whose publish
CommandResult has success false, the submit stage is never invoked and
the outcome is the status error dict with context Push failed, whose
message is the bridge errorOutput followed, when the publish output is
non-empty, by a 200-character excerpt of that output. -/
theorem C2_push_failure_short_circuit (allowed : List String)
    (bridge : ExtCall → CommandResult) (proj : String)
    (params : List (String × String)) (bname : Option String)
    (hv : validation_stage allowed params = none)
    (hfail : (bridge (ExtCall.push proj)).success = false) :
    cloud_backtest allowed bridge proj params bname =
      (format_error "Push failed"
        ((bridge (ExtCall.push proj)).error ++
          (if (bridge (ExtCall.push proj)).output ≠ "" then
            " | Output: " ++ pyTakeChars 200 (bridge (ExtCall.push proj)).output ++ "..."
          else "")),
       [ExtCall.push proj]) ∧
    (cloud_backtest allowed bridge proj params bname).1.status = "error" ∧
    ∀ p n, ExtCall.submit p n ∉ (cloud_backtest allowed bridge proj params bname).2 := by
  refine ⟨?_, ?_, ?_⟩
  · simp [cloud_backtest, hv, hfail]
  · simp [cloud_backtest, hv, hfail, format_error, Outcome.status]
  · intro p n
    simp [cloud_backtest, hv, hfail]

/-- Witness for C2_push_failure_short_circuit on a bridge whose push
fails with error boom and a short non-empty output. -/
theorem C2_push_failure_short_circuit_witness :
    validation_stage defaultAllowedSymbols [("symbol", "SPY")] = none ∧
    (pushFailBridge (ExtCall.push "Proj")).success = false ∧
    cloud_backtest defaultAllowedSymbols pushFailBridge "Proj" [("symbol", "SPY")] none =
      (format_error "Push failed" "boom | Output: some out...", [ExtCall.push "Proj"]) :=
  ⟨by decide, by decide,
   ((C2_push_failure_short_circuit defaultAllowedSymbols pushFailBridge "Proj"
     [("symbol", "SPY")] none (by decide) (by decide)).1).trans (by decide)⟩

/-- C3.  The claim says a second registration under an existing name is
rejected and the registry keeps only the first descriptor, names
staying unique.  The code appends with no uniqueness check: after
registering two descriptors named dup the registry holds both and its
name list has a duplicate. -/
theorem C3_duplicate_registration_appended :
    add_tools (add_tools [] [dupToolA]) [dupToolB] = [dupToolA, dupToolB] ∧
    (add_tools (add_tools [] [dupToolA]) [dupToolB]).map ToolDesc.name = ["dup", "dup"] ∧
    ¬ ((add_tools (add_tools [] [dupToolA]) [dupToolB]).map ToolDesc.name).Nodup :=
  ⟨by decide, by decide, by decide⟩

/-- C4.  The command bridge never lets a launch fault escape: the
missing-executable case maps to success false, exit code -1 and the
tool-not-found message; any other launch fault maps to success false
with a descriptive errorOutput; and for a completed process the success
flag equals the test that the exit code is zero.  LeanBridge.execute
and QuantConnectCloudBridge._execute_lean_command agree on every
launch behaviour. -/
theorem C4_bridge_execute_total :
    (∀ (o : LaunchOutcome), LeanBridge_execute o = execute_lean_command o) ∧
    (execute_lean_command LaunchOutcome.fileNotFound =
      { success := false, output := "",
        error := "\x27lean\x27 command not found. Check LEAN installation and PATH.",
        return_code := -1 }) ∧
    (∀ (m : String), execute_lean_command (LaunchOutcome.otherError m) =
      { success := false, output := "",
        error := "An unexpected error occurred: " ++ m, return_code := -1 }) ∧
    (∀ (rc : Int) (out err : String),
      (execute_lean_command (LaunchOutcome.completed rc out err)).success = (rc == 0)) := by
  refine ⟨?_, rfl, ?_, ?_⟩
  · intro o; cases o <;> rfl
  · intro m; rfl
  · intro rc out err; rfl

/-- C5.  When validation passes, publish succeeds and submit succeeds,
the outcome applies the extraction scan to the submit output exactly,
with status success; the scan resolves the label followed by BT-12345
to that token, and an output with no labelled token to none (status
stays success through the general clause). -/
theorem C5_extraction_after_successful_submit (allowed : List String)
    (bridge : ExtCall → CommandResult) (proj : String)
    (params : List (String × String)) (bname : Option String)
    (hv : validation_stage allowed params = none)
    (hpush : (bridge (ExtCall.push proj)).success = true)
    (hsub : (bridge (ExtCall.submit proj bname)).success = true) :
    cloud_backtest allowed bridge proj params bname =
      (Outcome.response "success"
        (extract_backtest_id (bridge (ExtCall.submit proj bname)).output)
        (bridge (ExtCall.submit proj bname)),
       [ExtCall.push proj, ExtCall.submit proj bname]) ∧
    extract_backtest_id
      "Started backtest for project Proj with backtestId BT-12345" = some "BT-12345" ∧
    extract_backtest_id
      "Compiling project, submission queued, check dashboard" = none := by
  refine ⟨?_, by decide, by decide⟩
  simp [cloud_backtest, hv, hpush, hsub]

/-- Witness for C5_extraction_after_successful_submit on the happy
bridge, realizing the end-to-end example of the spec with identifier
BT-999. -/
theorem C5_extraction_after_successful_submit_witness :
    validation_stage defaultAllowedSymbols [("symbol", "SPY")] = none ∧
    (happyBridge (ExtCall.push "Proj A")).success = true ∧
    (happyBridge (ExtCall.submit "Proj A" (some "Run1"))).success = true ∧
    cloud_backtest defaultAllowedSymbols happyBridge "Proj A" [("symbol", "SPY")]
      (some "Run1") =
      (Outcome.response "success" (some "BT-999")
        (happyBridge (ExtCall.submit "Proj A" (some "Run1"))),
       [ExtCall.push "Proj A", ExtCall.submit "Proj A" (some "Run1")]) :=
  ⟨by decide, by decide, by decide,
   ((C5_extraction_after_successful_submit defaultAllowedSymbols happyBridge "Proj A"
     [("symbol", "SPY")] (some "Run1") (by decide) (by decide) (by decide)).1).trans
     (by decide)⟩

/-- C6.  When validation passes, publish succeeds and the submit
CommandResult has success false, extraction is skipped and the outcome
is status error with backtest_id none and the full submit CommandResult
as details. -/
theorem C6_submit_failure_details (allowed : List String)
    (bridge : ExtCall → CommandResult) (proj : String)
    (params : List (String × String)) (bname : Option String)
    (hv : validation_stage allowed params = none)
    (hpush : (bridge (ExtCall.push proj)).success = true)
    (hsub : (bridge (ExtCall.submit proj bname)).success = false) :
    cloud_backtest allowed bridge proj params bname =
      (Outcome.response "error" none (bridge (ExtCall.submit proj bname)),
       [ExtCall.push proj, ExtCall.submit proj bname]) := by
  simp [cloud_backtest, hv, hpush, hsub]

/-- Witness for C6_submit_failure_details on a bridge whose submit
fails. -/
theorem C6_submit_failure_details_witness :
    validation_stage defaultAllowedSymbols [("symbol", "SPY")] = none ∧
    (submitFailBridge (ExtCall.push "Proj")).success = true ∧
    (submitFailBridge (ExtCall.submit "Proj" none)).success = false ∧
    cloud_backtest defaultAllowedSymbols submitFailBridge "Proj" [("symbol", "SPY")] none =
      (Outcome.response "error" none (submitFailBridge (ExtCall.submit "Proj" none)),
       [ExtCall.push "Proj", ExtCall.submit "Proj" none]) :=
  ⟨by decide, by decide, by decide,
   C6_submit_failure_details defaultAllowedSymbols submitFailBridge "Proj"
     [("symbol", "SPY")] none (by decide) (by decide) (by decide)⟩

/-- C7.  On a server with an authenticator configured, invoking an
auth-required tool with no token yields the 401 authentication error
with no authenticator call; with a bearer token that authenticates but
lacks the capability, the 403 authorization error after authenticate
then authorize; with a token that authenticates and is entitled, the
handler result is returned unmodified; and whenever authorize is
consulted, authenticate was consulted first. -/
theorem C7_auth_gate_order :
    (∀ (R : Type) (auth : OAuth2Authenticator) (tool : ToolDesc)
        (handler : HandlerOutcome R),
      tool.require_auth = true →
      create_tool_endpoint tool (some auth) none handler =
        (Response.httpError 401 "Authentication required", [])) ∧
    (∀ (R : Type) (auth : OAuth2Authenticator) (tool : ToolDesc)
        (handler : HandlerOutcome R) (header : Option String),
      tool.require_auth = true →
      headerHasBearer header = true →
      auth.authenticate (pyReplaceBearer (header.getD "")) = true →
      auth.authorize (pyReplaceBearer (header.getD "")) tool.name = false →
      create_tool_endpoint tool (some auth) header handler =
        (Response.httpError 403 "Not authorized to use this tool",
         [AuthCallTag.authenticateCall, AuthCallTag.authorizeCall])) ∧
    (∀ (R : Type) (auth : OAuth2Authenticator) (tool : ToolDesc) (r : R)
        (header : Option String),
      tool.require_auth = true →
      headerHasBearer header = true →
      auth.authenticate (pyReplaceBearer (header.getD "")) = true →
      auth.authorize (pyReplaceBearer (header.getD "")) tool.name = true →
      create_tool_endpoint tool (some auth) header (HandlerOutcome.returns r) =
        (Response.result r, [AuthCallTag.authenticateCall, AuthCallTag.authorizeCall])) ∧
    (∀ (R : Type) (a : Option OAuth2Authenticator) (tool : ToolDesc)
        (header : Option String) (handler : HandlerOutcome R),
      AuthCallTag.authorizeCall ∈ (create_tool_endpoint tool a header handler).2 →
      (create_tool_endpoint tool a header handler).2 =
        [AuthCallTag.authenticateCall, AuthCallTag.authorizeCall]) := by
  refine ⟨?_, ?_, ?_, ?_⟩
  · intro R auth tool handler hreq
    simp [create_tool_endpoint, hreq, headerHasBearer]
  · intro R auth tool handler header hreq hh hauth hz
    simp [create_tool_endpoint, hreq, hh, hauth, hz]
  · intro R auth tool r header hreq hh hauth hz
    simp [create_tool_endpoint, hreq, hh, hauth, hz, runHandler]
  · intro R a tool header handler
    match a, hre : tool.require_auth with
    | some auth, true =>
      by_cases hh : headerHasBearer header = true
      · by_cases hz : auth.authorize (pyReplaceBearer (header.getD "")) tool.name = true
        · simp [create_tool_endpoint, hre, hh, hz, OAuth2Authenticator.authenticate]
        · simp at hz
          simp [create_tool_endpoint, hre, hh, hz, OAuth2Authenticator.authenticate]
      · simp at hh
        simp [create_tool_endpoint, hre, hh]
    | some auth, false =>
      simp [create_tool_endpoint, hre]
    | none, _ =>
      simp [create_tool_endpoint]

/-- Witness for C7_auth_gate_order at the deploy_live descriptor (the
one auth-required descriptor written in the source) and the AlphaForge
authenticator: missing token, unentitled token, and an entitled token
on the auth-raised cloud_backtest descriptor. -/
theorem C7_auth_gate_order_witness :
    deploy_live_desc.require_auth = true ∧
    create_tool_endpoint (R := Nat) deploy_live_desc (some alphaForgeAuthenticator) none
        (HandlerOutcome.returns 7) =
      (Response.httpError 401 "Authentication required", []) ∧
    create_tool_endpoint (R := Nat) deploy_live_desc (some alphaForgeAuthenticator)
        (some "Bearer tok0") (HandlerOutcome.returns 7) =
      (Response.httpError 403 "Not authorized to use this tool",
       [AuthCallTag.authenticateCall, AuthCallTag.authorizeCall]) ∧
    create_tool_endpoint (R := Nat) cloud_backtest_auth_desc (some alphaForgeAuthenticator)
        (some "Bearer tok0") (HandlerOutcome.returns 7) =
      (Response.result 7, [AuthCallTag.authenticateCall, AuthCallTag.authorizeCall]) :=
  ⟨rfl,
   C7_auth_gate_order.1 Nat alphaForgeAuthenticator deploy_live_desc
     (HandlerOutcome.returns 7) rfl,
   C7_auth_gate_order.2.1 Nat alphaForgeAuthenticator deploy_live_desc
     (HandlerOutcome.returns 7) (some "Bearer tok0") rfl (by decide) (by decide) (by decide),
   C7_auth_gate_order.2.2.1 Nat alphaForgeAuthenticator cloud_backtest_auth_desc 7
     (some "Bearer tok0") rfl (by decide) (by decide) (by decide)⟩

/-- C8.  A resource fetch invokes the dynamic provider when one is
present and returns its result; otherwise reads the backing store at
the configured path; returns the structured not-available payload when
neither a provider nor an existing backing file is there; and converts
any exception (a raising provider, an unreadable file) into the
structured 500 response instead of raising. -/
theorem C8_resource_fetch_never_raises :
    (∀ (fs : String → FileState) (r : ResourceDesc) (v : RValue),
      r.access_method = some (ProviderBehavior.returns v) →
      create_resource_endpoint r fs = ResourceResponse.ok v) ∧
    (∀ (fs : String → FileState) (r : ResourceDesc) (p : String) (v : RValue),
      r.access_method = none → r.access_path = some p → p ≠ "" →
      fs p = FileState.validJson v →
      create_resource_endpoint r fs = ResourceResponse.ok v) ∧
    (∀ (fs : String → FileState) (r : ResourceDesc),
      r.access_method = none →
      (r.access_path = none ∨
        ∃ p, r.access_path = some p ∧ (p = "" ∨ fs p = FileState.absent)) →
      create_resource_endpoint r fs =
        ResourceResponse.ok (RValue.errorObj "Resource not available")) ∧
    (∀ (fs : String → FileState) (r : ResourceDesc) (m : String),
      r.access_method = some (ProviderBehavior.raises m) →
      create_resource_endpoint r fs =
        ResourceResponse.errorResponse 500 ("Resource access failed: " ++ m)) ∧
    (∀ (fs : String → FileState) (r : ResourceDesc) (p m : String),
      r.access_method = none → r.access_path = some p → p ≠ "" →
      fs p = FileState.invalidJson m →
      create_resource_endpoint r fs =
        ResourceResponse.errorResponse 500 ("Resource access failed: " ++ m)) := by
  refine ⟨?_, ?_, ?_, ?_, ?_⟩
  · intro fs r v h
    simp [create_resource_endpoint, get_data, h]
  · intro fs r p v hm hp hne hfs
    simp [create_resource_endpoint, get_data, hm, hp, hne, hfs]
  · intro fs r hm h
    rcases h with h | ⟨p, hp, h⟩
    · simp [create_resource_endpoint, get_data, hm, h]
    · rcases h with h | h
      · simp [create_resource_endpoint, get_data, hm, hp, h]
      · by_cases hpe : p = ""
        · simp [create_resource_endpoint, get_data, hm, hp, hpe]
        · simp [create_resource_endpoint, get_data, hm, hp, hpe, h]
  · intro fs r m h
    simp [create_resource_endpoint, get_data, h]
  · intro fs r p m hm hp hne hfs
    simp [create_resource_endpoint, get_data, hm, hp, hne, hfs]

/-- Witness for C8_resource_fetch_never_raises at the risk_parameters
resource over a filesystem where its backing file is missing. -/
theorem C8_resource_fetch_never_raises_witness :
    risk_parameters_desc.access_method = none ∧
    create_resource_endpoint risk_parameters_desc absentFs =
      ResourceResponse.ok (RValue.errorObj "Resource not available") :=
  ⟨rfl,
   C8_resource_fetch_never_raises.2.2.1 absentFs risk_parameters_desc rfl
     (Or.inr ⟨"./config/risk_settings.json", rfl, Or.inr rfl⟩)⟩

/-- C9.  The auth gate runs only when the tool sets require_auth and an
authenticator is configured; the Tool decorator defaults require_auth
to false; every tool the server registers leaves it false; hence every
registered tool endpoint runs its handler with no token check and no
authenticator call. -/
theorem C9_registered_tools_no_auth :
    (({ name := "t", description := "", params := [] } : ToolDesc).require_auth = false) ∧
    (∀ t ∈ registered_tools, t.require_auth = false) ∧
    (∀ (R : Type) (tool : ToolDesc) (a : Option OAuth2Authenticator)
        (header : Option String) (handler : HandlerOutcome R),
      tool.require_auth = false ∨ a = none →
      create_tool_endpoint tool a header handler = (runHandler handler, [])) ∧
    (∀ (R : Type) (t : ToolDesc) (a : Option OAuth2Authenticator)
        (header : Option String) (handler : HandlerOutcome R),
      t ∈ registered_tools →
      create_tool_endpoint t a header handler = (runHandler handler, [])) := by
  refine ⟨rfl, by decide, ?_, ?_⟩
  · intro R tool a header handler h
    match a, hre : tool.require_auth with
    | some auth, true =>
      rcases h with h | h
      · rw [hre] at h; cases h
      · cases h
    | some auth, false => simp [create_tool_endpoint, hre]
    | none, _ => simp [create_tool_endpoint]
  · intro R t a header handler ht
    have hre : t.require_auth = false := by
      fin_cases ht <;> rfl
    match a, hre2 : t.require_auth with
    | some auth, true => rw [hre] at hre2; cases hre2
    | some auth, false => simp [create_tool_endpoint, hre2]
    | none, _ => simp [create_tool_endpoint]

/-- Witness for C9_registered_tools_no_auth at the registered
cloud_backtest descriptor, the AlphaForge authenticator and a bearer
header: the handler runs with no authenticator call. -/
theorem C9_registered_tools_no_auth_witness :
    cloud_backtest_desc ∈ registered_tools ∧
    create_tool_endpoint (R := Nat) cloud_backtest_desc (some alphaForgeAuthenticator)
        (some "Bearer tok0") (HandlerOutcome.returns 7) =
      (runHandler (HandlerOutcome.returns 7), []) :=
  ⟨by decide,
   C9_registered_tools_no_auth.2.2.2 Nat cloud_backtest_desc
     (some alphaForgeAuthenticator) (some "Bearer tok0") (HandlerOutcome.returns 7)
     (by decide)⟩

/-- C10.  The authorizer authenticates every token; it authorizes a
token for a tool exactly when the tool name is on the auto-approve list
fixed at construction; and the authorization decision is the same for
any two token values, never reading the token. -/
theorem C10_authorizer_token_independent (ad aat : List String) (t1 t2 tok name : String) :
    (OAuth2Authenticator.mk ad aat).authenticate tok = true ∧
    ((OAuth2Authenticator.mk ad aat).authorize t1 name = true ↔ name ∈ aat) ∧
    (OAuth2Authenticator.mk ad aat).authorize t1 name =
      (OAuth2Authenticator.mk ad aat).authorize t2 name := by
  refine ⟨rfl, ?_, rfl⟩
  simp [OAuth2Authenticator.authorize]

end AlphaForge
